import Mathlib

/-!
Shallow embedding of the rustc-perf compare-page frontend excerpt:
the compare page controller (tab selection, URL round-tripping, tab
descriptor construction), the tab strip's visibility filter, and the
tab summary table component. JavaScript numbers are modelled as `ℚ`
(the code performs no operation producing `NaN`/`Infinity` on the
values of interest), JavaScript string dictionaries (URL parameters)
as association lists with first-key-wins lookup and in-place update,
and nullable values as `Option`.
-/

namespace ComparePage

/-- URL parameter dictionaries (`Dict<string>` in the source): an
association list from parameter names to string values. -/
abbrev Dict := List (String × String)

/-- Lookup of a key in a `Dict` (`urlParams["key"]`); `none` models
JavaScript `undefined` for an absent key. -/
def lookupParam (params : Dict) (key : String) : Option String :=
  match params with
  | [] => none
  | (k, v) :: rest => if k = key then some v else lookupParam rest key

/-- Assignment `urlParams[key] = value`: overwrites the value at an
existing key, appends the binding otherwise. -/
def setParam (params : Dict) (key value : String) : Dict :=
  match params with
  | [] => [(key, value)]
  | (k, v) :: rest =>
    if k = key then (k, value) :: rest else (k, v) :: setParam rest key value

/-- The four tabs of the compare page (`Tab` enum from `types.ts`). -/
inductive Tab where
  | CompileTime
  | Runtime
  | Bootstrap
  | ArtifactSize
deriving DecidableEq, Repr

/-- Modelled from the spec: the string values of the `Tab` enum live in
the missing `types.ts`; per the spec ("the `tab` parameter accepts the
literal tokens `compile`, `runtime`, `bootstrap`, `artifact-size`" and
"Enumerated tab tokens and their URL string mapping must be preserved
exactly") each variant's string value is its URL token, and
`storeTabToUrl` casts the enum value to that string (`tab as string`). -/
def tabToUrlToken : Tab → String
  | .CompileTime => "compile"
  | .Runtime => "runtime"
  | .Bootstrap => "bootstrap"
  | .ArtifactSize => "artifact-size"

/-- The property names a plain JavaScript object literal inherits from
`Object.prototype`: for these keys a bare `obj[key]` lookup on an
object literal yields a non-null inherited value (a built-in function,
or for the `__proto__` accessor the prototype object) rather than
`undefined`. -/
def objectPrototypeKeys : List String :=
  ["constructor", "hasOwnProperty", "isPrototypeOf", "propertyIsEnumerable",
    "toLocaleString", "toString", "valueOf", "__defineGetter__",
    "__defineSetter__", "__lookupGetter__", "__lookupSetter__", "__proto__"]

/-- Result of the JavaScript lookup `tabs[tab] ?? null` on the tab
token table: one of the four own-property `Tab` values, a non-null
value inherited from `Object.prototype` (neither `null` nor a `Tab`,
which `?? null` passes through unchanged), or `null` from `undefined`
coalesced by `?? null`. -/
inductive TabLookupResult where
  | tab (t : Tab)
  | inherited (key : String)
  | null
deriving DecidableEq, Repr

/-- `loadTabFromUrl`: reads the `tab` URL parameter (defaulting the
absent case to `""`), then evaluates `tabs[tab] ?? null` on the object
literal with own keys `compile`, `runtime`, `bootstrap`,
`artifact-size`. A key absent from the literal is first looked up on
the prototype chain: the `Object.prototype` property names yield their
inherited non-null values, which `?? null` passes through; only a key
that is also absent there gives `undefined` and hence `null`. -/
def loadTabFromUrl (urlParams : Dict) : TabLookupResult :=
  let tab := (lookupParam urlParams "tab").getD ""
  if tab = "compile" then .tab .CompileTime
  else if tab = "runtime" then .tab .Runtime
  else if tab = "bootstrap" then .tab .Bootstrap
  else if tab = "artifact-size" then .tab .ArtifactSize
  else if tab ∈ objectPrototypeKeys then .inherited tab
  else .null

/-- `storeTabToUrl`: sets `urlParams["tab"]` to the tab's string value
and hands the resulting dictionary to `changeUrl`; the returned `Dict`
is the query-string state passed to `changeUrl`. -/
def storeTabToUrl (urlParams : Dict) (tab : Tab) : Dict :=
  setParam urlParams "tab" (tabToUrlToken tab)

/-- One artifact side of a `CompareResponse`: a bootstrap duration in
nanoseconds and a map from component name to byte size
(`component_sizes`), modelled as an association list. -/
structure ArtifactDescription where
  bootstrap_total : ℚ
  component_sizes : List (String × ℚ)
deriving DecidableEq, Repr

/-- The comparison payload fields the excerpt reads: the two artifact
descriptions `a` and `b`. -/
structure CompareResponse where
  a : ArtifactDescription
  b : ArtifactDescription
deriving DecidableEq, Repr

/-- `Object.values(component_sizes).reduce((a, b) => a + b, 0)`: the
total size of an artifact's components. -/
def totalSize (artifact : ArtifactDescription) : ℚ :=
  (artifact.component_sizes.map Prod.snd).foldl (· + ·) 0

/-- `artifactSizeAvailable`: data is loaded and at least one side's
`component_sizes` object has at least one key. -/
def artifactSizeAvailable (data : Option CompareResponse) : Bool :=
  match data with
  | none => false
  | some d =>
    decide (0 < d.a.component_sizes.length) || decide (0 < d.b.component_sizes.length)

/-- The computed `activeTab`: falls back to `CompileTime` when the
stored tab is `ArtifactSize` but artifact-size data is unavailable;
otherwise returns the stored tab. It is a derived pure function of the
stored tab and the loaded data, so evaluating it leaves the stored
`tab` ref untouched. -/
def activeTab (tab : Tab) (data : Option CompareResponse) : Tab :=
  if tab = .ArtifactSize && !artifactSizeAvailable data then .CompileTime
  else tab

/-- Rounding to the nearest integer, ties toward the larger candidate
(the choice the ECMAScript `toFixed` algorithm makes): `⌊q + 1/2⌋`,
computed on the rational's numerator and denominator so that it
evaluates by kernel reduction. -/
def roundTies (q : ℚ) : ℤ :=
  (2 * q.num + q.den) / (2 * (q.den : ℤ))

/-- Decimal rendering of a fixed-point integer `scaled` (the value
times `10 ^ digits`) with exactly `digits` fractional digits. -/
def renderFixed (scaled : ℤ) (digits : Nat) : String :=
  let sign := if scaled < 0 then "-" else ""
  let m := scaled.natAbs
  let ipart := m / 10 ^ digits
  let fpart := m % 10 ^ digits
  if digits = 0 then
    sign ++ toString ipart
  else
    let fstr := toString fpart
    let pad := String.mk (List.replicate (digits - fstr.length) '0')
    sign ++ toString ipart ++ "." ++ pad ++ fstr

/-- JavaScript `Number.prototype.toFixed(digits)` on a rational,
idealized: round the exact value to `digits` decimal places (ties
toward the larger rounded value), and render with exactly `digits`
fractional digits. Binary floating-point representation error is not
modelled. -/
def toFixed (q : ℚ) (digits : Nat) : String :=
  renderFixed (roundTies (q * (10 : ℚ) ^ digits)) digits

/-- `formatBootstrap`: positive nanosecond values are divided by `10e8`
(i.e. `10^9`) and rendered with `toFixed(3)`; non-positive values
render the `"???"` placeholder. -/
def formatBootstrap (value : ℚ) : String :=
  if 0 < value then toFixed (value / 1000000000) 3
  else "???"

/-- Modelled from the spec: `formatSize` lives in the missing `shared`
module; the spec says only that it formats a byte size into a
human-readable unit. Its exact rendering is irrelevant to every claim
(only which number reaches it matters), so it is modelled as the
decimal rendering of its argument. -/
def formatSize (size : ℚ) : String :=
  toString size

/-- `formatArtifactSize`: zero renders the `"???"` placeholder, any
other size is passed to `formatSize`. -/
def formatArtifactSize (size : ℚ) : String :=
  if size = 0 then "???"
  else formatSize size

/-- `bootstrapValid`: both bootstrap durations are positive. -/
def bootstrapValid (bootstrapA bootstrapB : ℚ) : Bool :=
  decide (0 < bootstrapA) && decide (0 < bootstrapB)

/-- `sizesAvailable`: at least one artifact has a positive total
component size. -/
def sizesAvailable (totalSizeA totalSizeB : ℚ) : Bool :=
  decide (0 < totalSizeA) || decide (0 < totalSizeB)

/-- `bothSizesAvailable`: both artifacts have a positive total
component size. -/
def bothSizesAvailable (totalSizeA totalSizeB : ℚ) : Bool :=
  decide (0 < totalSizeA) && decide (0 < totalSizeB)

/-- The fields of a `SummaryGroup` the shown code reads:
`all.count`, `all.range` and `all.average`. The payload types of
`range` and `average` come from the unshown `data.ts`; they are pass-through
data here (modelled as a rational pair and a rational), never inspected
by the code under verification. -/
structure SummaryAll where
  count : ℚ
  range : ℚ × ℚ
  average : ℚ
deriving DecidableEq, Repr

/-- Aggregate view over a filtered set of comparisons (from `data.ts`);
only the `all` group is read by the shown code. -/
structure SummaryGroup where
  all : SummaryAll
deriving DecidableEq, Repr

/-- Rendering outcome of the `TabSummaryTable` component: either the
two-column table showing the group's range and mean, or the
empty-state message (the `No results` span). The CSS class attached to
the mean cell (`percentClass`) is presentational and lives in the
missing `shared` module; it is not modelled. -/
inductive SummaryTableRender where
  | table (range : ℚ × ℚ) (mean : ℚ)
  | noResults
deriving DecidableEq, Repr

/-- The `TabSummaryTable` component (`tab-summary-table.vue`): renders
the two-column (range, mean) table when `summary.all.count > 0`, the
empty-state message otherwise. It is a pure function of its `summary`
prop: it owns no state and produces the same output for the same
input. -/
def renderTabSummaryTable (summary : SummaryGroup) : SummaryTableRender :=
  if 0 < summary.all.count then .table summary.all.range summary.all.average
  else .noResults

/-- The rendered bootstrap-tab summary snippet: the two
`formatBootstrap` texts joined by an arrow, plus, when `bootstrapValid`
holds, a diff element carrying the seconds delta
(`((b - a) / 10e8).toFixed(1)`) and the percent change
(`(((b - a) / a) * 100).toFixed(3)`). The element's CSS class
(`diffClass`, from the missing `shared` module) is presentational and
not modelled. -/
structure BootstrapSummary where
  textA : String
  textB : String
  delta : Option (String × String)
deriving DecidableEq, Repr

/-- Construction of the bootstrap-tab summary from the two
`bootstrap_total` values, mirroring the bootstrap entry of the `tabs`
array. -/
def bootstrapTabSummary (bootstrapA bootstrapB : ℚ) : BootstrapSummary :=
  { textA := formatBootstrap bootstrapA
    textB := formatBootstrap bootstrapB
    delta :=
      if bootstrapValid bootstrapA bootstrapB then
        some (toFixed ((bootstrapB - bootstrapA) / 1000000000) 1,
          toFixed ((bootstrapB - bootstrapA) / bootstrapA * 100) 3)
      else none }

/-- The rendered artifact-size-tab summary snippet: the two
`formatArtifactSize` texts, plus, when `bothSizesAvailable` holds, a
diff element showing a sign, the formatted absolute difference and the
percent change (`formatPercentChange`, opaque, from the missing
`shared` module, so the diff element records the sign string, the
absolute difference handed to `formatSize`, and the two totals handed
to `formatPercentChange`). -/
structure ArtifactSizeSummary where
  textA : String
  textB : String
  delta : Option (String × ℚ × ℚ × ℚ)
deriving DecidableEq, Repr

/-- Construction of the artifact-size-tab summary from the two total
sizes, mirroring the artifact-size entry of the `tabs` array. -/
def artifactSizeTabSummary (totalSizeA totalSizeB : ℚ) : ArtifactSizeSummary :=
  { textA := formatArtifactSize totalSizeA
    textB := formatArtifactSize totalSizeB
    delta :=
      if bothSizesAvailable totalSizeA totalSizeB then
        some (if totalSizeB < totalSizeA then "-" else "",
          |totalSizeB - totalSizeA|, totalSizeA, totalSizeB)
      else none }

/-- Summary content of a tab descriptor: a `TabSummaryTable` vnode over
a possibly-still-null summary ref, a bootstrap snippet, or an
artifact-size snippet. -/
inductive TabSummary where
  | summaryTable (summary : Option SummaryGroup)
  | bootstrap (s : BootstrapSummary)
  | artifactSize (s : ArtifactSizeSummary)
deriving DecidableEq, Repr

/-- One element of the `tabs` array: the descriptor handed to the
`Tabs` component. -/
structure TabDescriptor where
  tooltip : String
  title : String
  selected : Bool
  id : Tab
  summary : TabSummary
  isVisible : Bool
deriving DecidableEq, Repr

/-- The `tabs` array as built from a loaded `CompareResponse` (lines
reading `bootstrapA`, `bootstrapB`, `totalSizeA`, `totalSizeB`,
`sizesAvailable`, `bothSizesAvailable` and the four descriptor
literals). `tab` is the stored tab ref's value and `compileSummary`,
`runtimeSummary` the summary refs' values at construction time. -/
def buildTabs (d : CompareResponse) (tab : Tab)
    (compileSummary runtimeSummary : Option SummaryGroup) : List TabDescriptor :=
  let bootstrapA := d.a.bootstrap_total
  let bootstrapB := d.b.bootstrap_total
  let totalSizeA := totalSize d.a
  let totalSizeB := totalSize d.b
  let active := activeTab tab (some d)
  [ { tooltip := "Compilation time benchmarks: measure how long does it take to compile various crates using the compared rustc."
      title := "Compile-time"
      selected := active = .CompileTime
      id := .CompileTime
      summary := .summaryTable compileSummary
      isVisible := true }
  , { tooltip := "Runtime benchmarks: measure how long does it take to execute (i.e. how fast are) programs compiled by the compared rustc."
      title := "Runtime"
      selected := active = .Runtime
      id := .Runtime
      summary := .summaryTable runtimeSummary
      isVisible := true }
  , { tooltip := "Bootstrap duration: measures how long does it take to compile rustc by itself."
      title := "Bootstrap"
      selected := active = .Bootstrap
      id := .Bootstrap
      summary := .bootstrap (bootstrapTabSummary bootstrapA bootstrapB)
      isVisible := true }
  , { tooltip := "Artifact size: sizes of individual components of the two artifacts."
      title := "Artifact size"
      selected := active = .ArtifactSize
      id := .ArtifactSize
      summary := .artifactSize (artifactSizeTabSummary totalSizeA totalSizeB)
      isVisible := sizesAvailable totalSizeA totalSizeB } ]

/-- The setup-time evaluation of the tab-descriptor block: the source
reads `data.value.a.bootstrap_total`, `data.value.b.bootstrap_total`
and the two `component_sizes` maps directly off `data.value` with no
null guard, so when the asynchronous compare-data fetch has not yet
resolved (`data.value` still `null`) the evaluation dereferences
`null` and throws; the failure is embedded as `none`. -/
def setupTabs (data : Option CompareResponse) (tab : Tab)
    (compileSummary runtimeSummary : Option SummaryGroup) :
    Option (List TabDescriptor) :=
  match data with
  | none => none
  | some d => some (buildTabs d tab compileSummary runtimeSummary)

/-- The `Tabs` component's `activeTabs` computed value
(`tabs.vue`): the caller-supplied descriptors filtered to the visible
ones. -/
def visibleTabs (tabs : List TabDescriptor) : List TabDescriptor :=
  tabs.filter (·.isVisible)

/-- A degenerate loaded response: artifact `a` has one component of
recorded size zero, artifact `b` has none. Its `component_sizes` keys
are non-empty, so `artifactSizeAvailable` holds, yet both total sizes
are zero, so the artifact-size tab is not visible. -/
def degenerateResponse : CompareResponse :=
  { a := { bootstrap_total := 1, component_sizes := [("x", 0)] }
    b := { bootstrap_total := 1, component_sizes := [] } }

/-- A loaded response with a positive component size on artifact `a`,
making the artifact-size tab both available and visible. -/
def availableResponse : CompareResponse :=
  { a := { bootstrap_total := 1, component_sizes := [("x", 2)] }
    b := { bootstrap_total := 1, component_sizes := [] } }

/-! Helper lemmas about URL-parameter dictionaries. -/

theorem lookupParam_setParam_self (params : Dict) (key value : String) :
    lookupParam (setParam params key value) key = some value := by
  induction params with
  | nil => simp [setParam, lookupParam]
  | cons kv rest ih =>
    obtain ⟨k, v⟩ := kv
    by_cases h : k = key
    · simp [setParam, h, lookupParam]
    · simp [setParam, h, lookupParam, ih]

theorem lookupParam_setParam_other (params : Dict) (key value other : String)
    (hne : other ≠ key) :
    lookupParam (setParam params key value) other = lookupParam params other := by
  induction params with
  | nil => simp [setParam, lookupParam, Ne.symm hne]
  | cons kv rest ih =>
    obtain ⟨k, v⟩ := kv
    by_cases h : k = key
    · subst h
      simp [setParam, lookupParam, Ne.symm hne]
    · simp [setParam, h, lookupParam, ih]

theorem setParam_setParam_same (params : Dict) (key value : String) :
    setParam (setParam params key value) key value = setParam params key value := by
  induction params with
  | nil => simp [setParam]
  | cons kv rest ih =>
    obtain ⟨k, v⟩ := kv
    by_cases h : k = key
    · simp [setParam, h]
    · simp [setParam, h, ih]

/-- C1 (code bug): the claim matches the spec's intent, but the code's
bare object-literal lookup `tabs[tab] ?? null` leaks `Object.prototype`
properties. For the URL value `constructor` (likewise `toString`,
`__proto__` and the other inherited names) the lookup returns a
non-null inherited value that is neither `null` nor one of the four
tabs, contradicting "returns null for every other string value".
The four recognized tokens and genuinely unknown strings, the empty
string and an absent parameter included, behave as claimed. -/
theorem loadTabFromUrl_prototype_leak :
    loadTabFromUrl [("tab", "constructor")]
      = TabLookupResult.inherited "constructor" ∧
    loadTabFromUrl [("tab", "toString")]
      = TabLookupResult.inherited "toString" ∧
    loadTabFromUrl [("tab", "__proto__")]
      = TabLookupResult.inherited "__proto__" ∧
    loadTabFromUrl [("tab", "compile")] = TabLookupResult.tab Tab.CompileTime ∧
    loadTabFromUrl [("tab", "runtime")] = TabLookupResult.tab Tab.Runtime ∧
    loadTabFromUrl [("tab", "bootstrap")] = TabLookupResult.tab Tab.Bootstrap ∧
    loadTabFromUrl [("tab", "artifact-size")]
      = TabLookupResult.tab Tab.ArtifactSize ∧
    loadTabFromUrl [("tab", "unknown")] = TabLookupResult.null ∧
    loadTabFromUrl [("tab", "")] = TabLookupResult.null ∧
    loadTabFromUrl [] = TabLookupResult.null := by
  decide

/-- C5: `formatBootstrap` returns the placeholder for every
non-positive input (in particular at `0` and `-5`), and for positive
input renders the value divided by `10^9` (nanoseconds to seconds)
with three-decimal `toFixed` precision, so
`formatBootstrap 3000000000 = "3.000"`. -/
theorem formatBootstrap_spec :
    (∀ value : ℚ, value ≤ 0 → formatBootstrap value = "???") ∧
    (∀ value : ℚ, 0 < value →
      formatBootstrap value = toFixed (value / 1000000000) 3) ∧
    formatBootstrap 0 = "???" ∧
    formatBootstrap (-5) = "???" ∧
    formatBootstrap 3000000000 = "3.000" := by
  refine ⟨fun v hv => ?_, fun v hv => ?_, ?_, ?_, ?_⟩
  · rw [formatBootstrap, if_neg (not_lt.mpr hv)]
  · rw [formatBootstrap, if_pos hv]
  · rw [formatBootstrap, if_neg (by norm_num)]
  · rw [formatBootstrap, if_neg (by norm_num)]
  · rw [formatBootstrap, if_pos (by norm_num), toFixed,
      show (3000000000 : ℚ) / 1000000000 * (10 : ℚ) ^ 3 = 3000 by norm_num,
      show roundTies 3000 = 3000 by unfold roundTies; norm_num]
    decide

/-- Witness for C5 at a concrete non-positive input. -/
theorem formatBootstrap_spec_witness : formatBootstrap (-7) = "???" :=
  formatBootstrap_spec.1 (-7) (by decide)

/-- C6: `storeTabToUrl` sets only the `tab` parameter to the new tab's
token and leaves every other existing parameter key and value
unchanged in the query string handed to `changeUrl`. -/
theorem storeTabToUrl_frame_spec (params : Dict) (tab : Tab) :
    lookupParam (storeTabToUrl params tab) "tab" = some (tabToUrlToken tab) ∧
    ∀ key : String, key ≠ "tab" →
      lookupParam (storeTabToUrl params tab) key = lookupParam params key := by
  refine ⟨lookupParam_setParam_self params "tab" (tabToUrlToken tab),
    fun key hk => lookupParam_setParam_other params "tab" (tabToUrlToken tab) key hk⟩

/-- Witness for C6 at a concrete dictionary and key. -/
theorem storeTabToUrl_frame_spec_witness :
    lookupParam (storeTabToUrl [("start", "x"), ("tab", "compile")] Tab.Bootstrap)
      "tab" = some (tabToUrlToken Tab.Bootstrap) ∧
    lookupParam (storeTabToUrl [("start", "x"), ("tab", "compile")] Tab.Bootstrap)
      "start" = lookupParam [("start", "x"), ("tab", "compile")] "start" :=
  ⟨(storeTabToUrl_frame_spec [("start", "x"), ("tab", "compile")] Tab.Bootstrap).1,
    (storeTabToUrl_frame_spec [("start", "x"), ("tab", "compile")] Tab.Bootstrap).2
      "start" (by decide)⟩

/-- C7: storing the same tab into the URL twice in a row produces the
same final query-string state as storing it once. -/
theorem storeTabToUrl_idempotent (params : Dict) (tab : Tab) :
    storeTabToUrl (storeTabToUrl params tab) tab = storeTabToUrl params tab := by
  rw [storeTabToUrl, storeTabToUrl]
  exact setParam_setParam_same params "tab" (tabToUrlToken tab)

/-- C10: for every stored tab other than `ArtifactSize`, the computed
`activeTab` equals the stored tab unconditionally, whatever the loaded
data; the `CompileTime` fallback can fire only for `ArtifactSize`. -/
theorem activeTab_non_artifact_size (t : Tab) (data : Option CompareResponse)
    (h : t ≠ Tab.ArtifactSize) : activeTab t data = t := by
  simp [activeTab, h]

/-- Witness for C10 at concrete inputs (with data absent). -/
theorem activeTab_non_artifact_size_witness :
    activeTab Tab.Runtime none = Tab.Runtime :=
  activeTab_non_artifact_size Tab.Runtime none (by decide)

/-- C3: the artifact-size tab descriptor (the unique descriptor with
id `ArtifactSize`) has its `isVisible` flag set exactly when the sum
of component sizes of artifact `a` is positive or the sum of component
sizes of artifact `b` is positive. -/
theorem artifact_size_tab_visibility (d : CompareResponse) (t : Tab)
    (cs rs : Option SummaryGroup) :
    ((buildTabs d t cs rs).filter (fun td => decide (td.id = Tab.ArtifactSize))).map
      TabDescriptor.isVisible
      = [decide (0 < totalSize d.a ∨ 0 < totalSize d.b)] := by
  simp [buildTabs, sizesAvailable]

/-- C4: the tab-descriptor construction reads the two
`bootstrap_total` values and `component_sizes` maps off `data.value`
without a null guard: evaluated while the compare-data fetch is
unresolved (`data` still null) it fails (`none`), and under the
precondition that the data has loaded it is total and yields the four
descriptors. -/
theorem setupTabs_requires_loaded_data (t : Tab) (cs rs : Option SummaryGroup) :
    setupTabs none t cs rs = none ∧
    ∀ d : CompareResponse,
      setupTabs (some d) t cs rs = some (buildTabs d t cs rs) ∧
      (buildTabs d t cs rs).map TabDescriptor.id
        = [Tab.CompileTime, Tab.Runtime, Tab.Bootstrap, Tab.ArtifactSize] :=
  ⟨rfl, fun d => ⟨rfl, by simp [buildTabs]⟩⟩

/-- C8: in the bootstrap tab summary, positive (and in particular
positive distinct) `bootstrap_total` values yield a present delta
indicator, while two zero values render the placeholder-to-placeholder
texts with no delta indicator; the Bootstrap descriptor of the `tabs`
array carries exactly this summary. -/
theorem bootstrap_tab_summary_delta (a b : ℚ) :
    (0 < a → 0 < b → a ≠ b →
      (bootstrapTabSummary a b).delta.isSome = true) ∧
    bootstrapTabSummary 0 0 = { textA := "???", textB := "???", delta := none } ∧
    ∀ (d : CompareResponse) (t : Tab) (cs rs : Option SummaryGroup),
      ((buildTabs d t cs rs).filter (fun td => decide (td.id = Tab.Bootstrap))).map
        TabDescriptor.summary
        = [TabSummary.bootstrap
            (bootstrapTabSummary d.a.bootstrap_total d.b.bootstrap_total)] := by
  refine ⟨fun ha hb _ => ?_, ?_, fun d t cs rs => ?_⟩
  · simp [bootstrapTabSummary, bootstrapValid, ha, hb]
  · norm_num [bootstrapTabSummary, bootstrapValid, formatBootstrap]
  · simp [buildTabs]

/-- Witness for C8 at concrete positive distinct totals. -/
theorem bootstrap_tab_summary_delta_witness :
    (bootstrapTabSummary 1 2).delta.isSome = true :=
  (bootstrap_tab_summary_delta 1 2).1 (by decide) (by decide) (by decide)

/-- C9: the summary table component renders the two-column (range,
mean) table exactly when the group's `all.count` is positive, and the
empty-state message otherwise; being a plain function of its summary
argument, it is stateless and yields the same output for the same
input. -/
theorem tab_summary_table_spec (summary : SummaryGroup) :
    (0 < summary.all.count →
      renderTabSummaryTable summary
        = SummaryTableRender.table summary.all.range summary.all.average) ∧
    (¬ 0 < summary.all.count →
      renderTabSummaryTable summary = SummaryTableRender.noResults) := by
  constructor <;> intro h <;> simp [renderTabSummaryTable, h]

/-- Witness for C9 at a concrete summary group with one result. -/
theorem tab_summary_table_spec_witness :
    renderTabSummaryTable ⟨⟨1, (0, 0), 0⟩⟩ = SummaryTableRender.table (0, 0) 0 :=
  (tab_summary_table_spec ⟨⟨1, (0, 0), 0⟩⟩).1 (by decide)

/-- C2 (counterexample): on `degenerateResponse` with the stored tab
`ArtifactSize`, the computed `activeTab` stays `ArtifactSize`, yet the
visible tabs are exactly CompileTime, Runtime and Bootstrap — the
effective active tab is not one of the currently visible tabs, because
`activeTab` falls back on `artifactSizeAvailable` (non-empty key sets)
while visibility uses `sizesAvailable` (positive totals). -/
theorem active_tab_visibility_counterexample :
    activeTab Tab.ArtifactSize (some degenerateResponse) = Tab.ArtifactSize ∧
    (visibleTabs (buildTabs degenerateResponse Tab.ArtifactSize none none)).map
      TabDescriptor.id = [Tab.CompileTime, Tab.Runtime, Tab.Bootstrap] ∧
    Tab.ArtifactSize ∉
      (visibleTabs (buildTabs degenerateResponse Tab.ArtifactSize none none)).map
        TabDescriptor.id := by
  have htot : totalSize degenerateResponse.a = 0 := by
    simp [totalSize, degenerateResponse]
  have htotb : totalSize degenerateResponse.b = 0 := by
    simp [totalSize, degenerateResponse]
  refine ⟨?_, ?_, ?_⟩
  · simp [activeTab, artifactSizeAvailable, degenerateResponse]
  · norm_num [visibleTabs, buildTabs, htot, htotb, sizesAvailable]
  · norm_num [visibleTabs, buildTabs, htot, htotb, sizesAvailable]
    decide

/-- C2 (amended): whenever the stored tab is `ArtifactSize` and
artifact-size data is unavailable (`artifactSizeAvailable` false), the
computed `activeTab` yields `CompileTime`; and provided availability
implies visibility (whenever a non-empty `component_sizes` map has a
positive total — in particular for all-positive recorded sizes), the
effective active tab is one of the currently visible tabs. `activeTab`
is a derived pure computation, so evaluating it never mutates the
stored tab selection. -/
theorem active_tab_visibility_amended (d : CompareResponse) (t : Tab)
    (cs rs : Option SummaryGroup)
    (h : artifactSizeAvailable (some d) = true →
      sizesAvailable (totalSize d.a) (totalSize d.b) = true) :
    activeTab t (some d) ∈
      (visibleTabs (buildTabs d t cs rs)).map TabDescriptor.id ∧
    (t = Tab.ArtifactSize → artifactSizeAvailable (some d) = false →
      activeTab t (some d) = Tab.CompileTime) := by
  constructor
  · by_cases ht : t = Tab.ArtifactSize
    · subst ht
      by_cases hav : artifactSizeAvailable (some d) = true
      · have hs := h hav
        simp [activeTab, hav, visibleTabs, buildTabs, hs]
      · replace hav : artifactSizeAvailable (some d) = false := by
          simpa using hav
        cases hsz : sizesAvailable (totalSize d.a) (totalSize d.b) <;>
          simp [activeTab, hav, visibleTabs, buildTabs, hsz]
    · cases hsz : sizesAvailable (totalSize d.a) (totalSize d.b) <;>
        simp [activeTab, ht, visibleTabs, buildTabs, hsz] <;>
        cases t <;> simp_all
  · intro ht hav
    subst ht
    simp [activeTab, hav]

/-- Witness for the amended C2 at a concrete available-and-visible
response. -/
theorem active_tab_visibility_amended_witness :
    activeTab Tab.ArtifactSize (some availableResponse) ∈
      (visibleTabs (buildTabs availableResponse Tab.ArtifactSize none none)).map
        TabDescriptor.id :=
  (active_tab_visibility_amended availableResponse Tab.ArtifactSize none none
    (fun _ => by simp [sizesAvailable, totalSize, availableResponse])).1

end ComparePage
